import Mathlib

/-!
Verification of the Bluetooth object-model adapter of `home-bt-broker`.

The embedding models `internal/bluetooth` (the BlueZ manager) and the
Bluetooth HTTP handler flows of `internal/handlers/bluetooth.go`:

* the managed-object tree returned by the bulk
  `org.freedesktop.DBus.ObjectManager.GetManagedObjects` query is modelled as
  an association list `ObjectTree` from object paths to interface maps, each
  interface map being an association list from interface names to property
  bags, and each property bag an association list from property names to
  dynamically-typed values `DVal` (mirroring `map[dbus.ObjectPath]map[string]
  map[string]dbus.Variant`);
* a Go type assertion `v.Value().(string)` that fails at runtime is a panic;
  the model returns `BtError.typeAssertionPanic` for it, kept distinct from
  `BtError.adapterNotFound`, which models the ordinary error value returned by
  `GetAdapterPathByMAC` when no adapter matches;
* every remote D-Bus interaction a code path issues is recorded in a trace of
  `BusCall` values: the bulk fetch, method invocations (`Connect`, `Pair`,
  `RemoveDevice`) and property mutations issued through
  `org.freedesktop.DBus.Properties.Set`, which get the distinct constructor
  `BusCall.propertySet`. The bus itself is modelled as a fixed tree with a
  transport that succeeds, which is the regime all the claims below are about.
-/

namespace HomeBtBroker

/-- Dynamically typed D-Bus variant payload, as far as the code inspects it:
the code only ever asserts `string` or `bool`, every other payload is
collapsed into `other`. -/
inductive DVal where
  | str (s : String)
  | bool (b : Bool)
  | other
  deriving DecidableEq, Repr

/-- Property bag of one interface: property name to value. -/
abbrev PropBag := List (String × DVal)

/-- Interfaces exposed by one object: interface name to property bag. -/
abbrev InterfaceMap := List (String × PropBag)

/-- Managed-object tree: object path to exposed interfaces. -/
abbrev ObjectTree := List (String × InterfaceMap)

/-- Constant `AdapterInterface` of the bluetooth package. -/
def AdapterInterface : String := "org.bluez.Adapter1"

/-- Constant `DeviceInterface` of the bluetooth package. -/
def DeviceInterface : String := "org.bluez.Device1"

/-- The `Adapter` record of the bluetooth package. -/
structure Adapter where
  Path : String
  Name : String
  Address : String
  Powered : Bool
  Discoverable : Bool
  Discovering : Bool
  deriving DecidableEq, Repr

/-- The `Device` record of the bluetooth package. -/
structure Device where
  Path : String
  Name : String
  Address : String
  Paired : Bool
  Trusted : Bool
  Connected : Bool
  Adapter : String
  deriving DecidableEq, Repr

/-- Errors and panics a modelled operation can surface. `typeAssertionPanic p`
models the Go runtime panic of an unchecked type assertion on property `p`;
`adapterNotFound mac` models the error value `adapter with MAC address %s not
found` returned by `GetAdapterPathByMAC`. -/
inductive BtError where
  | typeAssertionPanic (prop : String)
  | adapterNotFound (mac : String)
  deriving DecidableEq, Repr

/-- One remote D-Bus interaction. `getManagedObjects` is the bulk fetch,
`methodCall` an `obj.Call` of a named method with object-path arguments, and
`propertySet` an `org.freedesktop.DBus.Properties.Set` call (a property
mutation, deliberately distinguished from a method invocation). -/
inductive BusCall where
  | getManagedObjects
  | methodCall (path : String) (method : String) (args : List String)
  | propertySet (path : String) (iface : String) (prop : String) (value : DVal)
  deriving DecidableEq, Repr

/-- Models Go `strings.HasPrefix(s, pre)`. -/
def goHasPref (s pre : String) : Bool :=
  pre.data.isPrefixOf s.data

/-- Spec-side notion used by the claims: `pre` is a strict (proper) prefix of
`s`, i.e. a prefix of `s` different from the whole of `s`. -/
def strictPrefOf (pre s : String) : Bool :=
  pre.data.isPrefixOf s.data && pre.data != s.data

/-- Character-level substitution underlying
`strings.ReplaceAll(mac, ":", "_")`: the pattern is the single character `:`,
so the replacement is an independent per-character map. -/
def underscoreChars (cs : List Char) : List Char :=
  cs.map fun c => if c = ':' then '_' else c

/-- Models `strings.ReplaceAll(mac, ":", "_")` from the device-path
construction shared by `ConnectDevice`, `TrustDevice`, `PairDevice` and
`RemoveDevice`. -/
def macToUnderscore (mac : String) : String :=
  ⟨underscoreChars mac.data⟩

/-- Inverse substitution named by the spec's round-trip property: each `_`
replaced by `:`. -/
def colonChars (cs : List Char) : List Char :=
  cs.map fun c => if c = '_' then ':' else c

/-- Applies the inverse substitution to a whole string. -/
def macFromUnderscore (s : String) : String :=
  ⟨colonChars s.data⟩

/-- Models the construction
`fmt.Sprintf("%s/dev_%s", adapterPath, strings.ReplaceAll(macAddress, ":", "_"))`
appearing verbatim in `ConnectDevice`, `TrustDevice`, `PairDevice` and
`RemoveDevice`; the spec calls it `DevicePath`. -/
def DevicePath (adapterPath macAddress : String) : String :=
  adapterPath ++ "/dev_" ++ macToUnderscore macAddress

/-- The MAC segment of a constructed device identifier: what follows
`adapterPath + "/dev_"` (that fixed lead-in occupies `adapterPath.data.length
+ 5` characters). -/
def macSegment (adapterPath id : String) : String :=
  ⟨id.data.drop (adapterPath.data.length + 5)⟩

/-- Models `if v, ok := props[k]; ok { x = v.Value().(string) }` applied to a
field whose Go zero value is `""`: an absent key keeps the zero value, a
present string is taken, and a present non-string payload panics. -/
def getStrProp (props : PropBag) (k : String) : Except BtError String :=
  match props.lookup k with
  | none => .ok ""
  | some (.str s) => .ok s
  | some _ => .error (.typeAssertionPanic k)

/-- Same for a `bool`-typed field with Go zero value `false`. -/
def getBoolProp (props : PropBag) (k : String) : Except BtError Bool :=
  match props.lookup k with
  | none => .ok false
  | some (.bool b) => .ok b
  | some _ => .error (.typeAssertionPanic k)

/-- The adapter-record construction in the loop body of `GetAdapters`:
fields are read in source order `Name`, `Address`, `Powered`, `Discoverable`,
`Discovering`. -/
def extractAdapter (path : String) (props : PropBag) : Except BtError Adapter := do
  let name ← getStrProp props "Name"
  let address ← getStrProp props "Address"
  let powered ← getBoolProp props "Powered"
  let discoverable ← getBoolProp props "Discoverable"
  let discovering ← getBoolProp props "Discovering"
  .ok ⟨path, name, address, powered, discoverable, discovering⟩

/-- The loop of `GetAdapters` over the fetched tree: every object exposing
`AdapterInterface` contributes one record. Go map iteration order is
unspecified; the model fixes the association-list order. -/
def extractAdapters : ObjectTree → Except BtError (List Adapter)
  | [] => .ok []
  | (path, ifaces) :: rest =>
    match ifaces.lookup AdapterInterface with
    | none => extractAdapters rest
    | some props => do
      let a ← extractAdapter path props
      let tail ← extractAdapters rest
      .ok (a :: tail)

/-- The device-record construction in the loop body of `GetDevices`: fields
are read in source order `Name`, `Address`, `Paired`, `Trusted`, `Connected`,
with `Path` set to the object path and `Adapter` set to the filter value. -/
def extractDevice (path adapterPath : String) (props : PropBag) :
    Except BtError Device := do
  let name ← getStrProp props "Name"
  let address ← getStrProp props "Address"
  let paired ← getBoolProp props "Paired"
  let trusted ← getBoolProp props "Trusted"
  let connected ← getBoolProp props "Connected"
  .ok ⟨path, name, address, paired, trusted, connected, adapterPath⟩

/-- The loop of `GetDevices` over the fetched tree: objects exposing
`DeviceInterface` are kept when `strings.HasPrefix(path, adapterPath + "/")`
holds, otherwise skipped with `continue`. -/
def extractDevices (adapterPath : String) : ObjectTree → Except BtError (List Device)
  | [] => .ok []
  | (path, ifaces) :: rest =>
    match ifaces.lookup DeviceInterface with
    | none => extractDevices adapterPath rest
    | some props =>
      if goHasPref path (adapterPath ++ "/") then do
        let d ← extractDevice path adapterPath props
        let tail ← extractDevices adapterPath rest
        .ok (d :: tail)
      else extractDevices adapterPath rest

/-- `GetAdapters` against a bus holding `tree`: one bulk fetch, then pure
reconstruction. -/
def GetAdapters (tree : ObjectTree) :
    Except BtError (List Adapter) × List BusCall :=
  (extractAdapters tree, [.getManagedObjects])

/-- `GetDevices` against a bus holding `tree`: one bulk fetch, then pure
reconstruction filtered by the adapter path. -/
def GetDevices (tree : ObjectTree) (adapterPath : String) :
    Except BtError (List Device) × List BusCall :=
  (extractDevices adapterPath tree, [.getManagedObjects])

/-- The linear scan of `GetAdapterPathByMAC` over the adapter list: the first
adapter whose `Address` equals the argument exactly (case-sensitive). -/
def findAdapterByAddress (mac : String) : List Adapter → Option Adapter
  | [] => none
  | a :: rest => if a.Address = mac then some a else findAdapterByAddress mac rest

/-- `GetAdapterPathByMAC`: fetches all adapters and scans for an exact
address match, returning the not-found error when none matches. -/
def GetAdapterPathByMAC (tree : ObjectTree) (mac : String) :
    Except BtError String × List BusCall :=
  match GetAdapters tree with
  | (.error e, calls) => (.error e, calls)
  | (.ok adapters, calls) =>
    match findAdapterByAddress mac adapters with
    | some a => (.ok a.Path, calls)
    | none => (.error (.adapterNotFound mac), calls)

/-- `ConnectDevice` of the bluetooth package: one `Device1.Connect` method
call against the constructed device path. -/
def ConnectDevice (adapterPath macAddress : String) :
    Except BtError Unit × List BusCall :=
  (.ok (), [.methodCall (DevicePath adapterPath macAddress)
              (DeviceInterface ++ ".Connect") []])

/-- `TrustDevice` of the bluetooth package: one
`org.freedesktop.DBus.Properties.Set` call against the constructed device
path, setting `Trusted` of `Device1` to `true`. -/
def TrustDevice (adapterPath macAddress : String) :
    Except BtError Unit × List BusCall :=
  (.ok (), [.propertySet (DevicePath adapterPath macAddress)
              DeviceInterface "Trusted" (.bool true)])

/-- `PairDevice` of the bluetooth package: one `Device1.Pair` method call
against the constructed device path. -/
def PairDevice (adapterPath macAddress : String) :
    Except BtError Unit × List BusCall :=
  (.ok (), [.methodCall (DevicePath adapterPath macAddress)
              (DeviceInterface ++ ".Pair") []])

/-- `RemoveDevice` of the bluetooth package: one `Adapter1.RemoveDevice`
method call targeted at the adapter path, with the constructed device path
passed as the call's argument. -/
def RemoveDevice (adapterPath macAddress : String) :
    Except BtError Unit × List BusCall :=
  (.ok (), [.methodCall adapterPath (AdapterInterface ++ ".RemoveDevice")
              [DevicePath adapterPath macAddress]])

/-- The HTTP handler flow of `ConnectDevice` in
`internal/handlers/bluetooth.go`: resolve the adapter MAC to a path, stop on
failure, otherwise dispatch the connect command; the trace accumulates every
remote call either step issues. -/
def ConnectDeviceHandler (tree : ObjectTree) (adapterMAC macAddress : String) :
    Except BtError Unit × List BusCall :=
  match GetAdapterPathByMAC tree adapterMAC with
  | (.error e, calls) => (.error e, calls)
  | (.ok adapterPath, calls) =>
    let step := ConnectDevice adapterPath macAddress
    (step.1, calls ++ step.2)

/-- The HTTP handler flow of `TrustDevice` in
`internal/handlers/bluetooth.go`: resolve the adapter MAC, then dispatch the
property-set command. -/
def TrustDeviceHandler (tree : ObjectTree) (adapterMAC macAddress : String) :
    Except BtError Unit × List BusCall :=
  match GetAdapterPathByMAC tree adapterMAC with
  | (.error e, calls) => (.error e, calls)
  | (.ok adapterPath, calls) =>
    let step := TrustDevice adapterPath macAddress
    (step.1, calls ++ step.2)

/-- Recognises the property-mutation call shape. -/
def isPropSetCall : BusCall → Bool
  | .propertySet _ _ _ _ => true
  | _ => false

/-- Recognises a command call: any remote interaction other than the
managed-object bulk fetch. -/
def isCommandCall : BusCall → Bool
  | .getManagedObjects => false
  | _ => true

/-- Checks that a property value, when present, carries a string payload (so
the unchecked `string` assertion of the code would succeed). -/
def strPropOk : Option DVal → Bool
  | none => true
  | some (.str _) => true
  | some _ => false

/-- Checks that a property value, when present, carries a boolean payload. -/
def boolPropOk : Option DVal → Bool
  | none => true
  | some (.bool _) => true
  | some _ => false

/-- Total string read with the Go zero value for an absent property. -/
def strPropD : Option DVal → String
  | some (.str s) => s
  | _ => ""

/-- Total boolean read with the Go zero value for an absent property. -/
def boolPropD : Option DVal → Bool
  | some (.bool b) => b
  | _ => false

/-- All five adapter properties the code reads are well-typed when present. -/
def adapterPropsOk (props : PropBag) : Bool :=
  strPropOk (props.lookup "Name") && strPropOk (props.lookup "Address") &&
  boolPropOk (props.lookup "Powered") && boolPropOk (props.lookup "Discoverable") &&
  boolPropOk (props.lookup "Discovering")

/-- All five device properties the code reads are well-typed when present. -/
def devicePropsOk (props : PropBag) : Bool :=
  strPropOk (props.lookup "Name") && strPropOk (props.lookup "Address") &&
  boolPropOk (props.lookup "Paired") && boolPropOk (props.lookup "Trusted") &&
  boolPropOk (props.lookup "Connected")

/-- Every adapter property bag in the tree is well-typed. -/
def adapterTreeOk (tree : ObjectTree) : Bool :=
  tree.all fun e =>
    match e.2.lookup AdapterInterface with
    | some props => adapterPropsOk props
    | none => true

/-- Every device property bag in the tree is well-typed. -/
def deviceTreeOk (tree : ObjectTree) : Bool :=
  tree.all fun e =>
    match e.2.lookup DeviceInterface with
    | some props => devicePropsOk props
    | none => true

/-- Total adapter-record builder: what the loop body of `GetAdapters`
produces on a well-typed bag, with zero values for absent properties. -/
def mkAdapter (path : String) (props : PropBag) : Adapter :=
  ⟨path, strPropD (props.lookup "Name"), strPropD (props.lookup "Address"),
   boolPropD (props.lookup "Powered"), boolPropD (props.lookup "Discoverable"),
   boolPropD (props.lookup "Discovering")⟩

/-- Total device-record builder: what the loop body of `GetDevices` produces
on a well-typed bag. -/
def mkDevice (path adapterPath : String) (props : PropBag) : Device :=
  ⟨path, strPropD (props.lookup "Name"), strPropD (props.lookup "Address"),
   boolPropD (props.lookup "Paired"), boolPropD (props.lookup "Trusted"),
   boolPropD (props.lookup "Connected"), adapterPath⟩

/-- Selection function of `GetDevices` on one tree entry: a device record iff
the entry exposes the device interface and passes the prefix filter. -/
def devSel (adapterPath : String) (e : String × InterfaceMap) : Option Device :=
  match e.2.lookup DeviceInterface with
  | some props =>
    if goHasPref e.1 (adapterPath ++ "/") then some (mkDevice e.1 adapterPath props)
    else none
  | none => none

/-- Selection function of `GetAdapters` on one tree entry. -/
def adpSel (e : String × InterfaceMap) : Option Adapter :=
  (e.2.lookup AdapterInterface).map fun props => mkAdapter e.1 props

/-- The managed-object tree of the spec's end-to-end Trust scenario: one
adapter at `/org/x/hci0` and one device at
`/org/x/hci0/dev_11_22_33_44_55_66`, `Trusted` still false. -/
def treeTrustScenario : ObjectTree :=
  [("/org/x/hci0", [(AdapterInterface, [("Address", DVal.str "AA:BB:CC:DD:EE:00")])]),
   ("/org/x/hci0/dev_11_22_33_44_55_66",
     [(DeviceInterface,
        [("Address", DVal.str "11:22:33:44:55:66"), ("Trusted", DVal.bool false)])])]

/-- A degenerate tree whose only device object sits at exactly
`adapterPath + "/"`: the path is a non-strict match of the filter string. -/
def treeEdge : ObjectTree :=
  [("/org/x/hci0/", [(DeviceInterface, [])])]

/-- A small well-typed tree with one matching device, one device of a
different adapter, and one adapter object, used to instantiate the
universally quantified theorems. -/
def treeSample : ObjectTree :=
  [("/org/bluez/hci0", [(AdapterInterface, [("Address", DVal.str "AA:BB:CC:DD:EE:00")])]),
   ("/org/bluez/hci0/dev_11_22_33_44_55_66",
     [(DeviceInterface, [("Address", DVal.str "11:22:33:44:55:66"),
                         ("Trusted", DVal.bool true)])]),
   ("/org/bluez/hci1/dev_77_88_99_AA_BB_CC",
     [(DeviceInterface, [("Address", DVal.str "77:88:99:AA:BB:CC")])])]

/-- The adapter record `GetAdapters` reconstructs from `treeSample`. -/
def adapterSample : Adapter :=
  ⟨"/org/bluez/hci0", "", "AA:BB:CC:DD:EE:00", false, false, false⟩

/-- A tree whose adapter object carries `Powered` with a string payload: the
unchecked `bool` assertion in `GetAdapters` panics on it. -/
def treeBadAdapter : ObjectTree :=
  [("/org/bluez/hci0", [(AdapterInterface, [("Powered", DVal.str "yes")])])]

/-- A tree whose device object carries `Name` with a boolean payload: the
unchecked `string` assertion in `GetDevices` panics on it. -/
def treeBadDevice : ObjectTree :=
  [("/org/bluez/hci0/dev_11_22_33_44_55_66",
     [(DeviceInterface, [("Name", DVal.bool true)])])]

deriving instance DecidableEq for Except



theorem isPrefixOf_append_self (a b : List Char) : a.isPrefixOf (a ++ b) = true := by
  induction a with
  | nil => simp [List.isPrefixOf]
  | cons x xs ih => simp [List.isPrefixOf, ih]

theorem colon_underscore_cancel (cs : List Char) (h : '_' ∉ cs) :
    colonChars (underscoreChars cs) = cs := by
  unfold colonChars underscoreChars
  rw [List.map_map]
  have hp : ∀ c ∈ cs,
      ((fun c => if c = '_' then ':' else c) ∘ fun c => if c = ':' then '_' else c) c = c := by
    intro c hc
    have hne : c ≠ '_' := fun he => h (he ▸ hc)
    by_cases hcc : c = ':' <;> simp [hcc, hne]
  rw [List.map_congr_left hp]
  simp

theorem underscoreChars_inj (xs ys : List Char) (hx : '_' ∉ xs) (hy : '_' ∉ ys)
    (h : underscoreChars xs = underscoreChars ys) : xs = ys := by
  have h2 := congrArg colonChars h
  rwa [colon_underscore_cancel xs hx, colon_underscore_cancel ys hy] at h2

theorem DevicePath_data (p m : String) :
    (DevicePath p m).data
      = p.data ++ ('/' :: 'd' :: 'e' :: 'v' :: '_' :: underscoreChars m.data) := by
  simp [DevicePath, String.data_append, macToUnderscore]

theorem strictPref_DevicePath (p m : String) :
    strictPrefOf (p ++ "/") (DevicePath p m) = true := by
  unfold strictPrefOf
  rw [Bool.and_eq_true]
  constructor
  · rw [String.data_append, DevicePath_data]
    have he : p.data ++ ('/' :: 'd' :: 'e' :: 'v' :: '_' :: underscoreChars m.data)
        = (p.data ++ "/".data) ++ ('d' :: 'e' :: 'v' :: '_' :: underscoreChars m.data) := by
      simp
    rw [he]
    exact isPrefixOf_append_self _ _
  · rw [bne_iff_ne]
    intro he
    have hlen := congrArg List.length he
    simp [String.data_append, DevicePath_data, List.length_append] at hlen

theorem goHasPref_DevicePath (p m : String) :
    goHasPref (DevicePath p m) (p ++ "/") = true := by
  unfold goHasPref
  rw [String.data_append, DevicePath_data]
  have he : p.data ++ ('/' :: 'd' :: 'e' :: 'v' :: '_' :: underscoreChars m.data)
      = (p.data ++ "/".data) ++ ('d' :: 'e' :: 'v' :: '_' :: underscoreChars m.data) := by
    simp
  rw [he]
  exact isPrefixOf_append_self _ _

theorem getStrProp_ok (props : PropBag) (k : String)
    (h : strPropOk (props.lookup k) = true) :
    getStrProp props k = .ok (strPropD (props.lookup k)) := by
  unfold getStrProp strPropD
  cases hl : props.lookup k with
  | none => rfl
  | some v => cases v <;> simp_all [strPropOk]

theorem getBoolProp_ok (props : PropBag) (k : String)
    (h : boolPropOk (props.lookup k) = true) :
    getBoolProp props k = .ok (boolPropD (props.lookup k)) := by
  unfold getBoolProp boolPropD
  cases hl : props.lookup k with
  | none => rfl
  | some v => cases v <;> simp_all [boolPropOk]

theorem extractAdapter_ok (path : String) (props : PropBag)
    (h : adapterPropsOk props = true) :
    extractAdapter path props = .ok (mkAdapter path props) := by
  unfold adapterPropsOk at h
  rw [Bool.and_eq_true, Bool.and_eq_true, Bool.and_eq_true, Bool.and_eq_true] at h
  obtain ⟨⟨⟨⟨h1, h2⟩, h3⟩, h4⟩, h5⟩ := h
  simp [extractAdapter, getStrProp_ok _ _ h1, getStrProp_ok _ _ h2,
        getBoolProp_ok _ _ h3, getBoolProp_ok _ _ h4, getBoolProp_ok _ _ h5, mkAdapter]
  rfl

theorem extractDevice_ok (path adapterPath : String) (props : PropBag)
    (h : devicePropsOk props = true) :
    extractDevice path adapterPath props = .ok (mkDevice path adapterPath props) := by
  unfold devicePropsOk at h
  rw [Bool.and_eq_true, Bool.and_eq_true, Bool.and_eq_true, Bool.and_eq_true] at h
  obtain ⟨⟨⟨⟨h1, h2⟩, h3⟩, h4⟩, h5⟩ := h
  simp [extractDevice, getStrProp_ok _ _ h1, getStrProp_ok _ _ h2,
        getBoolProp_ok _ _ h3, getBoolProp_ok _ _ h4, getBoolProp_ok _ _ h5, mkDevice]
  rfl

theorem extractAdapters_eq (tree : ObjectTree) (h : adapterTreeOk tree = true) :
    extractAdapters tree = .ok (tree.filterMap adpSel) := by
  induction tree with
  | nil => rfl
  | cons e rest ih =>
    obtain ⟨path, ifaces⟩ := e
    rw [adapterTreeOk, List.all_cons, Bool.and_eq_true] at h
    obtain ⟨h1, h2⟩ := h
    have ihr := ih h2
    cases hl : ifaces.lookup AdapterInterface with
    | none => simp [extractAdapters, hl, ihr, List.filterMap_cons, adpSel]
    | some props =>
      have hp : adapterPropsOk props = true := by simpa [hl] using h1
      simp [extractAdapters, hl, extractAdapter_ok _ _ hp, ihr, List.filterMap_cons, adpSel]
      rfl

theorem extractDevices_eq (adapterPath : String) (tree : ObjectTree)
    (h : deviceTreeOk tree = true) :
    extractDevices adapterPath tree = .ok (tree.filterMap (devSel adapterPath)) := by
  induction tree with
  | nil => rfl
  | cons e rest ih =>
    obtain ⟨path, ifaces⟩ := e
    rw [deviceTreeOk, List.all_cons, Bool.and_eq_true] at h
    obtain ⟨h1, h2⟩ := h
    have ihr := ih h2
    cases hl : ifaces.lookup DeviceInterface with
    | none => simp [extractDevices, hl, ihr, List.filterMap_cons, devSel]
    | some props =>
      have hp : devicePropsOk props = true := by simpa [hl] using h1
      by_cases hg : goHasPref path (adapterPath ++ "/") = true
      · simp [extractDevices, hl, hg, extractDevice_ok _ _ _ hp, ihr,
              List.filterMap_cons, devSel]
        rfl
      · simp [extractDevices, hl, hg, ihr, List.filterMap_cons, devSel]

theorem length_filterMap_countP {α β : Type} (f : α → Option β) (l : List α) :
    (l.filterMap f).length = l.countP fun a => (f a).isSome := by
  induction l with
  | nil => rfl
  | cons a l ih => cases hf : f a <;> simp [List.filterMap_cons, List.countP_cons, hf, ih]

theorem devSel_isSome (p : String) (e : String × InterfaceMap) :
    (devSel p e).isSome = ((e.2.lookup DeviceInterface).isSome && goHasPref e.1 (p ++ "/")) := by
  unfold devSel
  cases hl : e.2.lookup DeviceInterface <;>
    by_cases hg : goHasPref e.1 (p ++ "/") = true <;> simp_all

theorem adpSel_isSome (e : String × InterfaceMap) :
    (adpSel e).isSome = (e.2.lookup AdapterInterface).isSome := by
  unfold adpSel
  cases hl : e.2.lookup AdapterInterface <;> simp

theorem findAdapterByAddress_eq_none (mac : String) (l : List Adapter)
    (h : ∀ a ∈ l, a.Address ≠ mac) : findAdapterByAddress mac l = none := by
  induction l with
  | nil => rfl
  | cons a l ih =>
    rw [findAdapterByAddress, if_neg (h a (List.mem_cons_self a l))]
    exact ih fun b hb => h b (List.mem_cons_of_mem a hb)

theorem findAdapterByAddress_unique (mac : String) (l : List Adapter) (a0 : Adapter)
    (hmem : a0 ∈ l) (haddr : a0.Address = mac)
    (huniq : ∀ a ∈ l, a.Address = mac → a = a0) :
    findAdapterByAddress mac l = some a0 := by
  induction l with
  | nil => cases hmem
  | cons b l ih =>
    rw [findAdapterByAddress]
    by_cases hb : b.Address = mac
    · rw [if_pos hb, huniq b (List.mem_cons_self b l) hb]
    · rw [if_neg hb]
      rcases List.mem_cons.mp hmem with hba | hml
      · exact absurd (hba ▸ haddr) hb
      · exact ih hml fun a ha hA => huniq a (List.mem_cons_of_mem b ha) hA


/-- Claim C1, counterexample: the claim requires `GetDevices(T, p)` to select
exactly the object paths having `p + "/"` as a strict prefix, but on the tree
whose only device object sits at exactly `p + "/"` the code returns that one
device even though zero object paths have `p + "/"` as a strict prefix (the
code tests `strings.HasPrefix`, a non-strict prefix test). -/
theorem GetDevices_strict_claim_false :
    GetDevices treeEdge "/org/x/hci0"
      = (.ok [⟨"/org/x/hci0/", "", "", false, false, false, "/org/x/hci0"⟩],
         [.getManagedObjects])
    ∧ strictPrefOf ("/org/x/hci0" ++ "/") "/org/x/hci0/" = false
    ∧ (treeEdge.countP fun e =>
        (e.2.lookup DeviceInterface).isSome
          && strictPrefOf ("/org/x/hci0" ++ "/") e.1) = 0 := by
  exact ⟨by decide, by decide, by decide⟩

/-- Claim C1, amended: for every well-typed object tree and adapter path
filter `p`, `GetDevices` succeeds with exactly one `Device` record per object
path exposing the device interface and having `p + "/"` as a (possibly
non-strict) prefix; the count of returned devices equals the number of such
objects, each record's `Adapter` field is `p`, and when nothing matches the
result is the empty sequence, not an error. -/
theorem GetDevices_filter_spec (tree : ObjectTree) (p : String)
    (h : deviceTreeOk tree = true) :
    ∃ devs, GetDevices tree p = (.ok devs, [.getManagedObjects])
      ∧ devs = tree.filterMap (devSel p)
      ∧ devs.length = tree.countP (fun e =>
          (e.2.lookup DeviceInterface).isSome && goHasPref e.1 (p ++ "/"))
      ∧ (∀ d ∈ devs, d.Adapter = p ∧ goHasPref d.Path (p ++ "/") = true)
      ∧ ((∀ e ∈ tree, ¬((e.2.lookup DeviceInterface).isSome = true
            ∧ goHasPref e.1 (p ++ "/") = true)) → devs = []) := by
  have hcnt : (tree.filterMap (devSel p)).length
      = tree.countP (fun e =>
          (e.2.lookup DeviceInterface).isSome && goHasPref e.1 (p ++ "/")) := by
    rw [length_filterMap_countP]
    exact List.countP_congr fun e he => by rw [devSel_isSome]
  refine ⟨tree.filterMap (devSel p), ?_, rfl, hcnt, ?_, ?_⟩
  · unfold GetDevices
    rw [extractDevices_eq p tree h]
  · intro d hd
    rw [List.mem_filterMap] at hd
    obtain ⟨e, he, hsel⟩ := hd
    unfold devSel at hsel
    cases hl : e.2.lookup DeviceInterface with
    | none => rw [hl] at hsel; cases hsel
    | some props =>
      rw [hl] at hsel
      dsimp only at hsel
      by_cases hg : goHasPref e.1 (p ++ "/") = true
      · rw [if_pos hg] at hsel
        injection hsel with hd2
        subst hd2
        exact ⟨rfl, hg⟩
      · rw [if_neg hg] at hsel; cases hsel
  · intro hnone
    have hz : tree.countP (fun e =>
        (e.2.lookup DeviceInterface).isSome && goHasPref e.1 (p ++ "/")) = 0 := by
      rw [List.countP_eq_zero]
      intro e he hb
      rw [Bool.and_eq_true] at hb
      exact hnone e he ⟨hb.1, hb.2⟩
    exact List.length_eq_zero.mp (hcnt.trans hz)

/-- Claim C1 witness: the amended theorem instantiated on the concrete tree
`treeSample` with filter `/org/bluez/hci0`. -/
theorem GetDevices_filter_spec_witness :
    deviceTreeOk treeSample = true
    ∧ ∃ devs, GetDevices treeSample "/org/bluez/hci0" = (.ok devs, [.getManagedObjects])
      ∧ devs = treeSample.filterMap (devSel "/org/bluez/hci0")
      ∧ devs.length = treeSample.countP (fun e =>
          (e.2.lookup DeviceInterface).isSome && goHasPref e.1 ("/org/bluez/hci0" ++ "/"))
      ∧ (∀ d ∈ devs, d.Adapter = "/org/bluez/hci0"
          ∧ goHasPref d.Path ("/org/bluez/hci0" ++ "/") = true)
      ∧ ((∀ e ∈ treeSample, ¬((e.2.lookup DeviceInterface).isSome = true
            ∧ goHasPref e.1 ("/org/bluez/hci0" ++ "/") = true)) → devs = []) :=
  ⟨by decide, GetDevices_filter_spec treeSample "/org/bluez/hci0" (by decide)⟩

/-- Claim C2: for every adapter path `p` and MAC string `m`, the identifier
built by the command dispatcher (`p`, the fixed `/dev_` separator, and `m`
with colons replaced by underscores) has `p + "/"` as a strict prefix, passes
the exact `strings.HasPrefix` filter `GetDevices` applies for `p`, and hence
a tree object at exactly that constructed path is selected by the device
extraction for `p`. -/
theorem DevicePath_selected_by_filter (p m : String) :
    strictPrefOf (p ++ "/") (DevicePath p m) = true
    ∧ goHasPref (DevicePath p m) (p ++ "/") = true
    ∧ (∀ tree : ObjectTree, deviceTreeOk tree = true →
        ∀ ifaces props, (DevicePath p m, ifaces) ∈ tree →
          ifaces.lookup DeviceInterface = some props →
          ∃ devs, extractDevices p tree = .ok devs
            ∧ mkDevice (DevicePath p m) p props ∈ devs) := by
  refine ⟨strictPref_DevicePath p m, goHasPref_DevicePath p m, ?_⟩
  intro tree ht ifaces props hmem hlk
  refine ⟨tree.filterMap (devSel p), extractDevices_eq p tree ht, ?_⟩
  rw [List.mem_filterMap]
  refine ⟨(DevicePath p m, ifaces), hmem, ?_⟩
  unfold devSel
  dsimp only
  rw [hlk]
  dsimp only
  rw [if_pos (goHasPref_DevicePath p m)]

/-- Claim C2 witness: the theorem instantiated on `treeSample`, whose device
entry sits at `DevicePath "/org/bluez/hci0" "11:22:33:44:55:66"`. -/
theorem DevicePath_selected_by_filter_witness :
    deviceTreeOk treeSample = true
    ∧ (DevicePath "/org/bluez/hci0" "11:22:33:44:55:66",
        [(DeviceInterface,
           [("Address", DVal.str "11:22:33:44:55:66"),
            ("Trusted", DVal.bool true)])]) ∈ treeSample
    ∧ ∃ devs, extractDevices "/org/bluez/hci0" treeSample = .ok devs
        ∧ mkDevice (DevicePath "/org/bluez/hci0" "11:22:33:44:55:66") "/org/bluez/hci0"
            [("Address", DVal.str "11:22:33:44:55:66"),
             ("Trusted", DVal.bool true)] ∈ devs :=
  ⟨by decide, by decide,
   (DevicePath_selected_by_filter "/org/bluez/hci0" "11:22:33:44:55:66").2.2 treeSample
     (by decide)
     [(DeviceInterface,
        [("Address", DVal.str "11:22:33:44:55:66"), ("Trusted", DVal.bool true)])]
     [("Address", DVal.str "11:22:33:44:55:66"), ("Trusted", DVal.bool true)]
     (by decide) (by decide)⟩

/-- Claim C3: on the spec's end-to-end tree (adapter `/org/x/hci0` with
address `AA:BB:CC:DD:EE:00`, device `/org/x/hci0/dev_11_22_33_44_55_66`,
`Trusted` false), invoking the Trust flow with those two MACs issues exactly
one property-set call — a property mutation, not a method invocation —
targeted at `/org/x/hci0/dev_11_22_33_44_55_66`, setting `Trusted` of
`Device1` to `true`, and returns success; the only other remote interaction
is the managed-object fetch used for resolution. -/
theorem TrustDevice_scenario :
    TrustDeviceHandler treeTrustScenario "AA:BB:CC:DD:EE:00" "11:22:33:44:55:66"
      = (.ok (), [.getManagedObjects,
          .propertySet "/org/x/hci0/dev_11_22_33_44_55_66" DeviceInterface
            "Trusted" (.bool true)])
    ∧ ((TrustDeviceHandler treeTrustScenario "AA:BB:CC:DD:EE:00" "11:22:33:44:55:66").2.countP
        fun c => isPropSetCall c) = 1
    ∧ ((TrustDeviceHandler treeTrustScenario "AA:BB:CC:DD:EE:00" "11:22:33:44:55:66").2.countP
        fun c => isCommandCall c) = 1 := by
  exact ⟨by decide, by decide, by decide⟩

/-- Claim C4: whenever the adapter extraction succeeds,
`GetAdapterPathByMAC` returns the not-found error when zero adapters have
address exactly equal to the argument (matching is exact string equality,
hence case-sensitive: a differently-cased address falls under the zero-match
case), and returns the unique matching adapter's path when exactly one
adapter matches. -/
theorem GetAdapterPathByMAC_spec (tree : ObjectTree) (mac : String)
    (adapters : List Adapter) (hok : extractAdapters tree = .ok adapters) :
    ((∀ a ∈ adapters, a.Address ≠ mac) →
      GetAdapterPathByMAC tree mac
        = (.error (.adapterNotFound mac), [.getManagedObjects]))
    ∧ (∀ a0 ∈ adapters, a0.Address = mac →
        (∀ a ∈ adapters, a.Address = mac → a = a0) →
        GetAdapterPathByMAC tree mac = (.ok a0.Path, [.getManagedObjects])) := by
  constructor
  · intro hnone
    simp [GetAdapterPathByMAC, GetAdapters, hok,
          findAdapterByAddress_eq_none mac adapters hnone]
  · intro a0 hmem haddr huniq
    simp [GetAdapterPathByMAC, GetAdapters, hok,
          findAdapterByAddress_unique mac adapters a0 hmem haddr huniq]

/-- Claim C4 witness: both branches instantiated on `treeSample`; the
differently-cased `aa:bb:cc:dd:ee:00` does not match and yields the
not-found error. -/
theorem GetAdapterPathByMAC_spec_witness :
    extractAdapters treeSample = .ok [adapterSample]
    ∧ GetAdapterPathByMAC treeSample "AA:BB:CC:DD:EE:00"
        = (.ok "/org/bluez/hci0", [.getManagedObjects])
    ∧ GetAdapterPathByMAC treeSample "aa:bb:cc:dd:ee:00"
        = (.error (.adapterNotFound "aa:bb:cc:dd:ee:00"), [.getManagedObjects]) :=
  ⟨by decide,
   (GetAdapterPathByMAC_spec treeSample "AA:BB:CC:DD:EE:00" [adapterSample]
      (by decide)).2 adapterSample (by decide) (by decide) (by decide),
   (GetAdapterPathByMAC_spec treeSample "aa:bb:cc:dd:ee:00" [adapterSample]
      (by decide)).1 (by decide)⟩

/-- Claim C5: when the Connect flow is invoked with an adapter MAC matching
no adapter in the tree, it returns the not-found error and issues no command
call: the recorded trace is exactly the one managed-object fetch used for
resolution. -/
theorem ConnectDevice_adapter_not_found (tree : ObjectTree)
    (adapterMAC macAddress : String) (adapters : List Adapter)
    (hok : extractAdapters tree = .ok adapters)
    (hnone : ∀ a ∈ adapters, a.Address ≠ adapterMAC) :
    ConnectDeviceHandler tree adapterMAC macAddress
      = (.error (.adapterNotFound adapterMAC), [.getManagedObjects])
    ∧ ((ConnectDeviceHandler tree adapterMAC macAddress).2.countP
        fun c => isCommandCall c) = 0 := by
  have hres : GetAdapterPathByMAC tree adapterMAC
      = (.error (.adapterNotFound adapterMAC), [.getManagedObjects]) := by
    simp [GetAdapterPathByMAC, GetAdapters, hok,
          findAdapterByAddress_eq_none adapterMAC adapters hnone]
  have hmain : ConnectDeviceHandler tree adapterMAC macAddress
      = (.error (.adapterNotFound adapterMAC), [.getManagedObjects]) := by
    simp [ConnectDeviceHandler, hres]
  refine ⟨hmain, ?_⟩
  rw [hmain]
  rfl

/-- Claim C5 witness: the theorem instantiated on `treeSample` with the
unmatched (differently-cased) adapter MAC `aa:bb:cc:dd:ee:00`. -/
theorem ConnectDevice_adapter_not_found_witness :
    extractAdapters treeSample = .ok [adapterSample]
    ∧ (∀ a ∈ [adapterSample], a.Address ≠ "aa:bb:cc:dd:ee:00")
    ∧ ConnectDeviceHandler treeSample "aa:bb:cc:dd:ee:00" "11:22:33:44:55:66"
        = (.error (.adapterNotFound "aa:bb:cc:dd:ee:00"), [.getManagedObjects])
    ∧ ((ConnectDeviceHandler treeSample "aa:bb:cc:dd:ee:00" "11:22:33:44:55:66").2.countP
        fun c => isCommandCall c) = 0 := by
  refine ⟨by decide, by decide, ?_, ?_⟩
  · exact (ConnectDevice_adapter_not_found treeSample "aa:bb:cc:dd:ee:00"
      "11:22:33:44:55:66" [adapterSample] (by decide) (by decide)).1
  · exact (ConnectDevice_adapter_not_found treeSample "aa:bb:cc:dd:ee:00"
      "11:22:33:44:55:66" [adapterSample] (by decide) (by decide)).2

/-- Claim C6: for every adapter path `p` and device MAC `m`, `RemoveDevice`
issues its remote call against the adapter identifier `p` — which always
differs from the device identifier — passing the constructed device
identifier as the call's argument. -/
theorem RemoveDevice_targets_adapter (adapterPath macAddress : String) :
    RemoveDevice adapterPath macAddress
      = (.ok (), [.methodCall adapterPath (AdapterInterface ++ ".RemoveDevice")
          [DevicePath adapterPath macAddress]])
    ∧ adapterPath ≠ DevicePath adapterPath macAddress := by
  refine ⟨rfl, ?_⟩
  intro he
  have hlen := congrArg (fun s => s.data.length) he
  simp [DevicePath_data, List.length_append] at hlen

/-- Claim C7, counterexample: `DevicePath` is not injective over all pairs
of distinct MAC strings under one adapter: the distinct strings
`AA_BB:CC:DD:EE:FF` and `AA:BB:CC:DD:EE:FF` collapse to the same identifier,
because the colon-to-underscore substitution erases the difference. -/
theorem DevicePath_injective_claim_false :
    DevicePath "/org/x/hci0" "AA_BB:CC:DD:EE:FF" = DevicePath "/org/x/hci0" "AA:BB:CC:DD:EE:FF"
    ∧ ("AA_BB:CC:DD:EE:FF" : String) ≠ "AA:BB:CC:DD:EE:FF" := by
  exact ⟨by decide, by decide⟩

/-- Claim C7, amended: `DevicePath` is injective over MAC strings containing
no underscore (which every colon-separated MAC satisfies): under the same
adapter path, two such distinct MACs always yield distinct identifiers. -/
theorem DevicePath_inj_on_colon_macs (p m1 m2 : String)
    (h1 : '_' ∉ m1.data) (h2 : '_' ∉ m2.data) (hne : m1 ≠ m2) :
    DevicePath p m1 ≠ DevicePath p m2 := by
  intro he
  apply hne
  have hd := congrArg String.data he
  rw [DevicePath_data, DevicePath_data] at hd
  have hd2 := List.append_cancel_left hd
  simp only [List.cons.injEq, true_and] at hd2
  exact String.ext (underscoreChars_inj m1.data m2.data h1 h2 hd2)

/-- Claim C7 witness: the amended theorem instantiated on two concrete
well-formed MACs under `/org/x/hci0`. -/
theorem DevicePath_inj_on_colon_macs_witness :
    ('_' ∉ ("AA:BB:CC:DD:EE:FF" : String).data)
    ∧ ('_' ∉ ("11:22:33:44:55:66" : String).data)
    ∧ ("AA:BB:CC:DD:EE:FF" : String) ≠ "11:22:33:44:55:66"
    ∧ DevicePath "/org/x/hci0" "AA:BB:CC:DD:EE:FF"
        ≠ DevicePath "/org/x/hci0" "11:22:33:44:55:66" :=
  ⟨by decide, by decide, by decide,
   DevicePath_inj_on_colon_macs "/org/x/hci0" "AA:BB:CC:DD:EE:FF" "11:22:33:44:55:66"
     (by decide) (by decide) (by decide)⟩

/-- Claim C8, counterexample: for the MAC string `AA_BB:CC:DD:EE:FF`, which
does contain a colon, reversing the underscore substitution on the MAC
segment of the constructed identifier yields `AA:BB:CC:DD:EE:FF`, not the
original string: containing a colon is not sufficient for the round trip. -/
theorem DevicePath_roundtrip_claim_false :
    (':' ∈ ("AA_BB:CC:DD:EE:FF" : String).data)
    ∧ macFromUnderscore
        (macSegment "/org/x/hci0" (DevicePath "/org/x/hci0" "AA_BB:CC:DD:EE:FF"))
        ≠ "AA_BB:CC:DD:EE:FF" := by
  exact ⟨by decide, by decide⟩

/-- Claim C8, amended: for every MAC string containing at least one colon
and no underscore, applying the inverse substitution (each underscore
replaced by a colon) to the MAC segment of `DevicePath(p, mac)` recovers the
original MAC string. -/
theorem DevicePath_roundtrip (p m : String) (_hc : ':' ∈ m.data) (hu : '_' ∉ m.data) :
    macFromUnderscore (macSegment p (DevicePath p m)) = m := by
  unfold macSegment macFromUnderscore
  rw [DevicePath_data]
  have hdrop : (p.data ++ ('/' :: 'd' :: 'e' :: 'v' :: '_' :: underscoreChars m.data)).drop
      (p.data.length + 5) = underscoreChars m.data := by
    rw [List.drop_append 5]
    rfl
  rw [hdrop, colon_underscore_cancel m.data hu]

/-- Claim C8 witness: the amended theorem instantiated on the MAC
`AA:BB:CC:DD:EE:FF` under `/org/x/hci0`. -/
theorem DevicePath_roundtrip_witness :
    (':' ∈ ("AA:BB:CC:DD:EE:FF" : String).data)
    ∧ ('_' ∉ ("AA:BB:CC:DD:EE:FF" : String).data)
    ∧ macFromUnderscore
        (macSegment "/org/x/hci0" (DevicePath "/org/x/hci0" "AA:BB:CC:DD:EE:FF"))
        = "AA:BB:CC:DD:EE:FF" :=
  ⟨by decide, by decide,
   DevicePath_roundtrip "/org/x/hci0" "AA:BB:CC:DD:EE:FF" (by decide) (by decide)⟩

/-- Claim C9: for every well-typed tree, `GetAdapters` succeeds and builds
one `Adapter` record per object path exposing the adapter interface, reading
`Name`, `Address`, `Powered`, `Discoverable` and `Discovering` from that
path's property bag; each of those five fields keeps its zero value (empty
string or false) whenever the property is absent from the bag, and an absent
property never causes an error. -/
theorem GetAdapters_tolerant_spec (tree : ObjectTree) (h : adapterTreeOk tree = true) :
    ∃ as, GetAdapters tree = (.ok as, [.getManagedObjects])
      ∧ as = tree.filterMap adpSel
      ∧ as.length = tree.countP (fun e => (e.2.lookup AdapterInterface).isSome)
      ∧ (∀ path props,
          (props.lookup "Name" = none → (mkAdapter path props).Name = "")
          ∧ (props.lookup "Address" = none → (mkAdapter path props).Address = "")
          ∧ (props.lookup "Powered" = none → (mkAdapter path props).Powered = false)
          ∧ (props.lookup "Discoverable" = none → (mkAdapter path props).Discoverable = false)
          ∧ (props.lookup "Discovering" = none → (mkAdapter path props).Discovering = false)) := by
  refine ⟨tree.filterMap adpSel, ?_, rfl, ?_, ?_⟩
  · unfold GetAdapters
    rw [extractAdapters_eq tree h]
  · rw [length_filterMap_countP]
    exact List.countP_congr fun e he => by rw [adpSel_isSome]
  · intro path props
    refine ⟨fun hn => ?_, fun hn => ?_, fun hn => ?_, fun hn => ?_, fun hn => ?_⟩ <;>
      simp [mkAdapter, hn, strPropD, boolPropD]

/-- Claim C9 witness: the theorem instantiated on `treeSample`, whose
adapter bag carries only `Address`, so the remaining four fields take their
zero values. -/
theorem GetAdapters_tolerant_spec_witness :
    adapterTreeOk treeSample = true
    ∧ ∃ as, GetAdapters treeSample = (.ok as, [.getManagedObjects])
      ∧ as = treeSample.filterMap adpSel
      ∧ as.length = treeSample.countP (fun e => (e.2.lookup AdapterInterface).isSome)
      ∧ (∀ path props,
          (props.lookup "Name" = none → (mkAdapter path props).Name = "")
          ∧ (props.lookup "Address" = none → (mkAdapter path props).Address = "")
          ∧ (props.lookup "Powered" = none → (mkAdapter path props).Powered = false)
          ∧ (props.lookup "Discoverable" = none → (mkAdapter path props).Discoverable = false)
          ∧ (props.lookup "Discovering" = none → (mkAdapter path props).Discovering = false)) :=
  ⟨by decide, GetAdapters_tolerant_spec treeSample (by decide)⟩

/-- Claim C10: the absent-property tolerance does not extend to mistyped
properties: on a tree whose adapter exposes `Powered` with a string payload
`GetAdapters` panics through the unchecked `bool` assertion, and on a tree
whose device exposes `Name` with a boolean payload `GetDevices` panics
through the unchecked `string` assertion — modelled as the distinguished
`typeAssertionPanic` outcome rather than a zero-value fallback. -/
theorem typeAssertion_panics :
    GetAdapters treeBadAdapter
      = (.error (.typeAssertionPanic "Powered"), [.getManagedObjects])
    ∧ GetDevices treeBadDevice "/org/bluez/hci0"
      = (.error (.typeAssertionPanic "Name"), [.getManagedObjects]) := by
  exact ⟨by decide, by decide⟩

end HomeBtBroker
